import Mathlib

/-!
Shallow embedding of the verification engine of the event-management backend
(Go sources: `internal/models/model.go` — data model and the verification
service `verificationService` — together with the repository layer
`participantRepo`, `eventRepo`, `userRepo`, `actionRepo` and the QR utility
`ExtractUUIDFromQRPath`).

Modelling conventions:
  * UUIDs are `String`s (the Go code compares them for equality and converts
    them to strings for lookups; no other structure is used).
  * `time.Time` is a `Nat` of nanoseconds since Go's zero time; `Truncate`
    of a positive duration rounds down to a multiple of that duration, which
    for non-negative instants is `t / d * d`.
  * `TicketPrice float64` is modelled as `ℚ`: the engine only ever compares
    it with `0`, and no float arithmetic is performed on it.
  * The gorm database is an in-memory `Store` of record lists; `First` on a
    unique key is `List.find?`.  Connection-level failures are not modelled,
    so a repository read fails exactly when no row matches.
  * Errors: gorm's `ErrRecordNotFound` sentinel matters because the service
    layer branches on `errors.Is(err, gorm.ErrRecordNotFound)`.  A repository
    error is `RepoError.recordNotFound` when the Go code returns the gorm
    sentinel unwrapped (or wrapped with `%w`), and `RepoError.message` when
    the Go code builds a fresh error with `fmt.Errorf` WITHOUT `%w` — such an
    error does not satisfy `errors.Is(err, gorm.ErrRecordNotFound)`.
  * Go string literals containing single-quote characters (e.g. the payment
    message `participant payment status is '%s'`) are reproduced without the
    quote characters; the `%s` interpolation itself is kept.  Messages whose
    Go version interpolates a formatted date (`eventDate.Format`) are kept as
    the constant prefix only.
-/

namespace Smses

/-! ## Data model (`internal/models/model.go`) -/

structure User where
  id : String
  email : String
  role : String
  deriving DecidableEq, Repr

structure Event where
  id : String
  title : String
  slug : String
  ticketPrice : ℚ
  isActive : Bool
  deriving DecidableEq, Repr

structure EventDay where
  id : String
  eventID : String
  dayNumber : Int
  label : String
  date : Nat
  deriving DecidableEq, Repr

structure EventAction where
  id : String
  eventID : String
  eventDayID : String
  name : String
  code : String
  isActive : Bool
  deriving DecidableEq, Repr

structure Participant where
  id : String
  eventID : String
  name : String
  email : String
  paymentStatus : String
  deriving DecidableEq, Repr

structure ActionLog where
  id : String
  participantID : String
  actionID : String
  verifiedBy : String
  verifiedAt : Nat
  createdAt : Nat
  deriving DecidableEq, Repr

/-- The persistent store the repositories read and write. -/
structure Store where
  users : List User
  events : List Event
  eventDays : List EventDay
  actions : List EventAction
  participants : List Participant
  logs : List ActionLog
  deriving DecidableEq, Repr

/-! ## Time (`time.Time.Truncate(24 * time.Hour)`) -/

def nanosPerDay : Nat := 24 * 60 * 60 * 1000000000

/-- Go `t.Truncate(24 * time.Hour)`: round down to the day boundary. -/
def truncateDay (t : Nat) : Nat := t / nanosPerDay * nanosPerDay

/-! ## Errors -/

/-- Repository-level error as seen through Go's `errors.Is`:
`recordNotFound` is an error for which
`errors.Is(err, gorm.ErrRecordNotFound)` holds, `message` is any other
error (in particular a `fmt.Errorf` that did not wrap the sentinel). -/
inductive RepoError where
  | recordNotFound
  | message (msg : String)
  deriving DecidableEq, Repr

/-- Go `errors.Is(err, gorm.ErrRecordNotFound)`. -/
def RepoError.isRecordNotFound : RepoError → Bool
  | .recordNotFound => true
  | .message _ => false

/-- `VerificationErrorType` constants of `model.go`. -/
inductive VErrorType where
  | invalidInput
  | invalidQRCode
  | participantNotFound
  | actionNotFound
  | actionInactive
  | verifierNotFound
  | paymentRequired
  | alreadyVerified
  | eventNotFound
  | eventMismatch
  | eventNotStarted
  | databaseError
  | permissionDenied
  | notImplemented
  deriving DecidableEq, Repr

/-- `VerificationError` (message + code; the optional wrapped `Details`
error is dropped — nothing in the engine reads it back). -/
structure VError where
  message : String
  code : VErrorType
  deriving DecidableEq, Repr

/-! ## QR utilities (`ExtractUUIDFromQRPath`, `filepath.Base`,
`filepath.Ext`, `uuid.Parse`) -/

/-- Go `filepath.Base` for unix paths: empty path gives `"."`, trailing
slashes are dropped, then everything up to the last slash is dropped; an
all-slash path gives `"/"`. -/
def filepathBase (p : String) : String :=
  if p = "" then "." else
    let rev := p.data.reverse.dropWhile (fun c => c = '/')
    let name := rev.takeWhile (fun c => c ≠ '/')
    if name = [] then "/" else ⟨name.reverse⟩

/-- Helper for `filepathExt`: walk the reversed string, collecting
characters until the first dot; stop empty at a path separator or the
string start.  Returns the reversed extension (including the dot). -/
def extRevAux : List Char → List Char → List Char
  | _, [] => []
  | acc, c :: rest =>
    if c = '/' then []
    else if c = '.' then acc ++ [c]
    else extRevAux (acc ++ [c]) rest

/-- Go `filepath.Ext`: the suffix beginning at the final dot of the final
path element, or `""` when there is no dot. -/
def filepathExt (p : String) : String :=
  ⟨(extRevAux [] p.data.reverse).reverse⟩

def isHexDigit (c : Char) : Bool :=
  ('0' ≤ c && c ≤ '9') || ('a' ≤ c && c ≤ 'f') || ('A' ≤ c && c ≤ 'F')

/-- Canonical 36-character UUID layout: dashes at offsets 8, 13, 18, 23,
hex digits elsewhere. -/
def uuidCanonicalOk (l : List Char) : Bool :=
  l.length = 36 &&
    (l.enum.all fun ic =>
      if ic.1 = 8 || ic.1 = 13 || ic.1 = 18 || ic.1 = 23 then ic.2 = '-'
      else isHexDigit ic.2)

/-- Whether `github.com/google/uuid`'s `Parse` accepts the string: the
canonical form, the `urn:uuid:` form, the braced form, or 32 bare hex
digits. -/
def uuidParseOk (s : String) : Bool :=
  let l := s.data
  if l.length = 36 then uuidCanonicalOk l
  else if l.length = 45 then
    (⟨(l.take 9).map Char.toLower⟩ : String) = "urn:uuid:" &&
      uuidCanonicalOk (l.drop 9)
  else if l.length = 38 then
    l.head? = some '{' && l.getLast? = some '}' &&
      uuidCanonicalOk ((l.drop 1).take 36)
  else if l.length = 32 then l.all isHexDigit
  else false

/-- `utils.ExtractUUIDFromQRPath`: take the path's base name, require a
non-empty extension, strip it, and require the rest to parse as a UUID. -/
def extractUUIDFromQRPath (qrPath : String) : Except RepoError String :=
  let filename := filepathBase qrPath
  let ext := filepathExt filename
  if ext = "" then .error (.message "invalid QR path format")
  else
    let uuidStr : String := ⟨filename.data.take (filename.data.length - ext.data.length)⟩
    if uuidParseOk uuidStr then .ok uuidStr
    else .error (.message "invalid UUID in QR path")

/-! ## Repository layer (`internal/repositories`, files `participantRepo`,
`eventRepo`, `userRepo`, `actionRepo`) -/

/-- `participantRepo.GetParticipantByID`: passes the gorm error through
unchanged, so a missing row surfaces as the `recordNotFound` sentinel. -/
def getParticipantByID (s : Store) (id : String) : Except RepoError Participant :=
  match s.participants.find? (fun p => p.id = id) with
  | some p => .ok p
  | none => .error .recordNotFound

/-- `participantRepo.GetParticipantCountByEventID`. -/
def getParticipantCountByEventID (s : Store) (eventID : String) : Int :=
  ((s.participants.filter (fun p => p.eventID = eventID)).length : Int)

/-- `userRepo.GetUserByID`: passes the gorm error through unchanged. -/
def getUserByID (s : Store) (id : String) : Except RepoError User :=
  match s.users.find? (fun u => u.id = id) with
  | some u => .ok u
  | none => .error .recordNotFound

/-- `eventRepo.GetEventByID`: an empty id or a missing row is reported via
a fresh `fmt.Errorf` (no `%w`), i.e. NOT the `recordNotFound` sentinel. -/
def getEventByID (s : Store) (id : String) : Except RepoError Event :=
  if id = "" then .error (.message "event ID cannot be empty")
  else
    match s.events.find? (fun e => e.id = id) with
    | some e => .ok e
    | none => .error (.message "event not found with ID")

/-- `eventRepo.GetEventDayByID`: same non-sentinel error shape. -/
def getEventDayByID (s : Store) (id : String) : Except RepoError EventDay :=
  if id = "" then .error (.message "event day ID cannot be empty")
  else
    match s.eventDays.find? (fun d => d.id = id) with
    | some d => .ok d
    | none => .error (.message "event day not found with ID")

/-- `eventRepo.GetEventActionByID`: looks the action up by id with NO
`is_active` filter; a missing row is a fresh `fmt.Errorf` (no `%w`). -/
def getEventActionByID (s : Store) (id : String) : Except RepoError EventAction :=
  if id = "" then .error (.message "event action ID cannot be empty")
  else
    match s.actions.find? (fun a => a.id = id) with
    | some a => .ok a
    | none => .error (.message "event action not found with ID")

/-- `eventRepo.GetEventActionByCode`: the query is
`code = ? AND is_active = true`, so an existing but inactive action behaves
like a missing row; and the missing-row error is a fresh `fmt.Errorf`
WITHOUT `%w`, so it is NOT the `recordNotFound` sentinel. -/
def getEventActionByCode (s : Store) (code : String) : Except RepoError EventAction :=
  if code = "" then .error (.message "event action code cannot be empty")
  else
    match s.actions.find? (fun a => a.code = code && a.isActive) with
    | some a => .ok a
    | none => .error (.message "event action not found with code")

/-- Number of `action_logs` rows for a (participant, action) pair
(the count behind `actionRepo.HasActionLog`). -/
def countLogs (s : Store) (participantID actionID : String) : Nat :=
  s.logs.countP (fun l => l.participantID = participantID && l.actionID = actionID)

/-- `actionRepo.HasActionLog`: `count > 0`. -/
def hasActionLog (s : Store) (participantID actionID : String) : Bool :=
  0 < countLogs s participantID actionID

/-- The `action_logs JOIN participants` rows of an event: logs whose
participant row exists and belongs to the event (ids are primary keys, so
the join matches at most one participant per log). -/
def eventLogs (s : Store) (eventID : String) : List ActionLog :=
  s.logs.filter (fun l =>
    match s.participants.find? (fun p => p.id = l.participantID) with
    | some p => p.eventID = eventID
    | none => false)

/-- `actionRepo.GetActionLogsByEvent`: total count of the joined rows plus
an OFFSET/LIMIT page of them.  (The SQL orders by `verified_at DESC`; the
ordering is irrelevant to every property proved here, so the page is taken
in store order.)  The service only ever calls this with `offset ≥ 0` and
`limit ≥ 1`. -/
def getActionLogsByEvent (s : Store) (eventID : String) (offset limit : Int) :
    List ActionLog × Int :=
  let rows := eventLogs s eventID
  (((rows.drop offset.toNat).take limit.toNat), (rows.length : Int))

/-- `actionRepo.CreateActionLog`: insert the row. -/
def createActionLog (s : Store) (log : ActionLog) : Store :=
  { s with logs := s.logs ++ [log] }

/-! ## Verification service (`verificationService` in `model.go`) -/

structure VerifyRequest where
  qrCodeData : String
  actionCode : String
  verifierID : String
  deriving DecidableEq, Repr

structure VerificationFilters where
  page : Int
  pageSize : Int
  deriving DecidableEq, Repr

structure VerificationList where
  verifications : List ActionLog
  totalCount : Int
  page : Int
  pageSize : Int
  totalPages : Int
  deriving DecidableEq, Repr

structure VerificationStats where
  eventID : String
  eventTitle : String
  totalVerifications : Int
  uniqueParticipants : Int
  verificationRate : ℚ
  deriving DecidableEq, Repr

/-- `isPaidEvent`: if the event cannot be fetched, assume the event is
free (the Go comment: "If we can't get event info, assume it's free to
avoid blocking verification"). -/
def isPaidEvent (s : Store) (eventID : String) : Bool :=
  match getEventByID s eventID with
  | .error _ => false
  | .ok e => 0 < e.ticketPrice

/-- `checkEventDayValidity`: skip the check when the event day cannot be
fetched; otherwise fail with `EVENT_NOT_STARTED` when `now` is before the
day's date truncated to the day boundary. -/
def checkEventDayValidity (s : Store) (now : Nat) (eventDayID : String) :
    Except VError Unit :=
  match getEventDayByID s eventDayID with
  | .error _ => .ok ()
  | .ok day =>
    if now < truncateDay day.date then
      .error ⟨"verification not allowed before event day", .eventNotStarted⟩
    else .ok ()

/-- `performVerificationChecks`: payment gate, then duplicate gate, then
event-consistency gate, then the event-day (temporal) gate — in that
order, short-circuiting on the first failure. -/
def performVerificationChecks (s : Store) (now : Nat)
    (participant : Participant) (action : EventAction) : Except VError Unit :=
  if isPaidEvent s participant.eventID && participant.paymentStatus ≠ "paid" then
    .error ⟨"participant payment status is " ++ participant.paymentStatus,
      .paymentRequired⟩
  else if hasActionLog s participant.id action.id then
    .error ⟨"already verified for action: " ++ action.name, .alreadyVerified⟩
  else if action.eventID ≠ participant.eventID then
    .error ⟨"action does not belong to participant's event", .eventMismatch⟩
  else
    checkEventDayValidity s now action.eventDayID

/-- `getAndValidateAction`: look the action up by code; `errors.Is(err,
gorm.ErrRecordNotFound)` decides between `ACTION_NOT_FOUND` and
`DATABASE_ERROR`; an inactive action found would be `ACTION_INACTIVE`. -/
def getAndValidateAction (s : Store) (actionCode : String) :
    Except VError EventAction :=
  match getEventActionByCode s actionCode with
  | .error e =>
    if e.isRecordNotFound then .error ⟨"action not found", .actionNotFound⟩
    else .error ⟨"failed to get action", .databaseError⟩
  | .ok action =>
    if !action.isActive then .error ⟨"action is not active", .actionInactive⟩
    else .ok action

/-- The participant-id half of `extractParticipantFromQR`: structured
extraction first, bare `uuid.Parse` of the raw payload as fallback. -/
def qrParticipantID (qrData : String) : Except VError String :=
  match extractUUIDFromQRPath qrData with
  | .ok pid => .ok pid
  | .error _ =>
    if uuidParseOk qrData then .ok qrData
    else .error ⟨"invalid QR code format", .invalidQRCode⟩

/-- `extractParticipantFromQR`: extract the participant id, then fetch the
participant. -/
def extractParticipantFromQR (s : Store) (qrData : String) :
    Except VError Participant :=
  match qrParticipantID qrData with
  | .error e => .error e
  | .ok pid =>
    match getParticipantByID s pid with
    | .ok p => .ok p
    | .error e =>
      if e.isRecordNotFound then
        .error ⟨"participant not found", .participantNotFound⟩
      else .error ⟨"failed to get participant", .databaseError⟩

/-- `validateVerifyRequest`. -/
def validateVerifyRequest (req : VerifyRequest) : Except VError Unit :=
  if req.qrCodeData = "" then .error ⟨"QR code data is required", .invalidInput⟩
  else if req.actionCode = "" then .error ⟨"action code is required", .invalidInput⟩
  else if req.verifierID = "" then .error ⟨"verifier ID is required", .invalidInput⟩
  else .ok ()

/-- The pure decision part of `VerifyParticipantAction` (steps 1-5 plus the
construction of the new `ActionLog` of step 6).  `newLogID` stands for the
fresh `uuid.New()`, `now` for `time.Now()`. -/
def verifyCompute (s : Store) (now : Nat) (newLogID : String)
    (req : VerifyRequest) : Except VError ActionLog :=
  match validateVerifyRequest req with
  | .error e => .error e
  | .ok _ =>
    match extractParticipantFromQR s req.qrCodeData with
    | .error e => .error e
    | .ok participant =>
      match getAndValidateAction s req.actionCode with
      | .error e => .error e
      | .ok action =>
        match getUserByID s req.verifierID with
        | .error _ => .error ⟨"verifier not found", .verifierNotFound⟩
        | .ok verifier =>
          match performVerificationChecks s now participant action with
          | .error e => .error e
          | .ok _ =>
            .ok ⟨newLogID, participant.id, action.id, verifier.id, now, now⟩

/-- `VerifyParticipantAction`: run the checks; on success insert exactly
the one new `ActionLog` (the only write of the whole engine), otherwise
leave the store untouched.  The Go success message
(`Successfully verified %s for participant %s`) carries no extra
information and is not modelled. -/
def verifyParticipantAction (s : Store) (now : Nat) (newLogID : String)
    (req : VerifyRequest) : Except VError ActionLog × Store :=
  match verifyCompute s now newLogID req with
  | .error e => (.error e, s)
  | .ok log => (.ok log, createActionLog s log)

/-- `CanVerifyParticipant`: the dry-run check.  It looks the action up BY
ID (no activity filter), then applies the payment, duplicate and
event-consistency gates — and no temporal gate.  It performs no write
(it returns no store). -/
def canVerifyParticipant (s : Store) (participantID actionID : String) :
    Except VError Unit :=
  if participantID = "" || actionID = "" then
    .error ⟨"participant ID and action ID are required", .invalidInput⟩
  else
    match getParticipantByID s participantID with
    | .error _ => .error ⟨"participant not found", .participantNotFound⟩
    | .ok participant =>
      match getEventActionByID s actionID with
      | .error _ => .error ⟨"action not found", .actionNotFound⟩
      | .ok action =>
        if isPaidEvent s participant.eventID && participant.paymentStatus ≠ "paid" then
          .error ⟨"participant has not paid", .paymentRequired⟩
        else if hasActionLog s participantID actionID then
          .error ⟨"already verified for this action", .alreadyVerified⟩
        else if action.eventID ≠ participant.eventID then
          .error ⟨"action does not belong to participant's event", .eventMismatch⟩
        else .ok ()

/-- `RevertVerification`: admin-only; the Go method performs no write at
all and unconditionally ends in an error (`NOT_IMPLEMENTED` in the
successful-authentication case), so the store is returned unchanged on
every path. -/
def revertVerification (s : Store) (verificationID adminID : String) :
    VError × Store :=
  if verificationID = "" || adminID = "" then
    (⟨"verification ID and admin ID are required", .invalidInput⟩, s)
  else
    match getUserByID s adminID with
    | .error _ => (⟨"admin user not found", .verifierNotFound⟩, s)
    | .ok admin =>
      if admin.role ≠ "admin" then
        (⟨"only admin users can revert verifications", .permissionDenied⟩, s)
      else
        (⟨"revert verification not yet implemented", .notImplemented⟩, s)

/-- `GetEventVerifications`: validate the event, normalize pagination,
query one page plus the total, and compute
`totalPages = (total + pageSize - 1) / pageSize` in integer arithmetic
(`Int.tdiv` is Go's `/`, truncation toward zero).  `none` stands for Go's
`filters == nil`.  The `DateFrom`/`DateTo`/`ActionID`/`VerifierID` filter
fields are accepted but never applied by the repository query, so they are
not modelled. -/
def getEventVerifications (s : Store) (eventID : String)
    (filters : Option VerificationFilters) : Except VError VerificationList :=
  if eventID = "" then .error ⟨"event ID is required", .invalidInput⟩
  else
    match getEventByID s eventID with
    | .error _ => .error ⟨"event not found", .eventNotFound⟩
    | .ok _ =>
      let f := filters.getD ⟨1, 20⟩
      let page := if f.page < 1 then 1 else f.page
      let pageSize := if f.pageSize < 1 || 100 < f.pageSize then 20 else f.pageSize
      let offset := (page - 1) * pageSize
      let (verifications, total) := getActionLogsByEvent s eventID offset pageSize
      let totalPages := (total + pageSize - 1).tdiv pageSize
      .ok ⟨verifications, total, page, pageSize, totalPages⟩

/-- `calculateVerificationStatistics`: fetches a page of size ONE
(`GetActionLogsByEvent(eventID, 0, 1)` — the Go comment says "Just to get
count"), discards the returned total, and uses the LENGTH OF THAT PAGE as
the total verification count; `uniqueParticipants` reuses the same number
and the rate divides it by the participant count (0 when there are no
participants).  The placeholder fields (`MostVerifiedAction` "General
Admission", `TopVerifier` "System", ...) are constants and not modelled. -/
def calculateVerificationStatistics (s : Store) (eventID : String)
    (totalParticipants : Int) : VerificationStats :=
  let page := (getActionLogsByEvent s eventID 0 1).1
  let totalVerifications : Int := (page.length : Int)
  let verificationRate : ℚ :=
    if 0 < totalParticipants then
      (totalVerifications : ℚ) / (totalParticipants : ℚ)
    else 0
  ⟨"", "", totalVerifications, totalVerifications, verificationRate⟩

/-- `GetVerificationStats`. -/
def getVerificationStats (s : Store) (eventID : String) :
    Except VError VerificationStats :=
  if eventID = "" then .error ⟨"event ID is required", .invalidInput⟩
  else
    match getEventByID s eventID with
    | .error _ => .error ⟨"event not found", .eventNotFound⟩
    | .ok event =>
      let totalParticipants := getParticipantCountByEventID s eventID
      let stats := calculateVerificationStatistics s eventID totalParticipants
      .ok { stats with eventID := eventID, eventTitle := event.title }

/-! ## Call sequences (for the at-most-once claim) -/

/-- One `verify` call: its `time.Now()`, its fresh `uuid.New()` log id,
and its request. -/
structure Call where
  now : Nat
  newLogID : String
  req : VerifyRequest
  deriving DecidableEq, Repr

/-- The store after a sequence of `verify` calls. -/
def runCalls (s : Store) : List Call → Store
  | [] => s
  | c :: cs => runCalls (verifyParticipantAction s c.now c.newLogID c.req).2 cs

/-- The call succeeds and its created `ActionLog` is for the given
(participant, action) pair. -/
def succeedsFor (s : Store) (c : Call) (pid aid : String) : Bool :=
  match (verifyParticipantAction s c.now c.newLogID c.req).1 with
  | .ok log => log.participantID = pid && log.actionID = aid
  | .error _ => false

/-- The call is "for the pair": its inputs are non-empty, its QR data
resolves to the participant `pid`, its action code resolves (found and
active) to the action `aid`, and its verifier id resolves to a user. -/
def resolvesTo (s : Store) (c : Call) (pid aid : String) : Bool :=
  c.req.qrCodeData ≠ "" && c.req.actionCode ≠ "" && c.req.verifierID ≠ "" &&
  (match extractParticipantFromQR s c.req.qrCodeData with
   | .ok p => p.id = pid
   | .error _ => false) &&
  (match getAndValidateAction s c.req.actionCode with
   | .ok a => a.id = aid
   | .error _ => false) &&
  (match getUserByID s c.req.verifierID with
   | .ok _ => true
   | .error _ => false)

/-- The central store invariant: at most one `ActionLog` per
(participant, action) pair. -/
def AtMostOnePerPair (s : Store) : Prop :=
  ∀ pid aid : String, countLogs s pid aid ≤ 1

/-! ## Concrete stores used by witnesses and counterexamples -/

/-- A participant id in the canonical UUID format accepted by
`uuid.Parse`. -/
def pid1 : String := "00000000-0000-4000-8000-000000000001"

def pid2 : String := "00000000-0000-4000-8000-000000000002"

/-- A store with one paid event (`e1`, price 10) holding one paid
participant, one past event day and one active action, plus one free event
`e2`; no logs yet. -/
def wStore : Store :=
  { users := [⟨"v1", "v@x", "staff"⟩, ⟨"adm1", "a@x", "admin"⟩]
    events := [⟨"e1", "Conf", "conf", 10, true⟩, ⟨"e2", "Free", "free", 0, true⟩]
    eventDays := [⟨"d1", "e1", 1, "Day 1", 0⟩]
    actions := [⟨"a1", "e1", "d1", "Check-in", "CHK", true⟩]
    participants := [⟨pid1, "e1", "Ann", "ann@x", "paid"⟩]
    logs := [] }

/-- The canonical successful call on `wStore`. -/
def wCall : Call := ⟨5, "log1", ⟨pid1, "CHK", "v1"⟩⟩

/-- A repeat of `wCall` with a fresh log id and later clock. -/
def wCall2 : Call := ⟨6, "log2", ⟨pid1, "CHK", "v1"⟩⟩

/-! ## Helper lemmas -/

/-- Two stores with the same non-log data (only the `action_logs` table may
differ). -/
def sameData (s₁ s₂ : Store) : Prop :=
  s₁.users = s₂.users ∧ s₁.events = s₂.events ∧ s₁.eventDays = s₂.eventDays ∧
    s₁.actions = s₂.actions ∧ s₁.participants = s₂.participants

theorem sameData_refl (s : Store) : sameData s s :=
  ⟨rfl, rfl, rfl, rfl, rfl⟩

theorem sameData_trans {s₁ s₂ s₃ : Store} (h₁ : sameData s₁ s₂)
    (h₂ : sameData s₂ s₃) : sameData s₁ s₃ := by
  obtain ⟨a₁, b₁, c₁, d₁, e₁⟩ := h₁
  obtain ⟨a₂, b₂, c₂, d₂, e₂⟩ := h₂
  exact ⟨a₁.trans a₂, b₁.trans b₂, c₁.trans c₂, d₁.trans d₂, e₁.trans e₂⟩

theorem getParticipantByID_congr {s₁ s₂ : Store} (h : sameData s₁ s₂)
    (i : String) : getParticipantByID s₁ i = getParticipantByID s₂ i := by
  unfold getParticipantByID
  rw [h.2.2.2.2]

theorem getUserByID_congr {s₁ s₂ : Store} (h : sameData s₁ s₂) (i : String) :
    getUserByID s₁ i = getUserByID s₂ i := by
  unfold getUserByID
  rw [h.1]

theorem getEventByID_congr {s₁ s₂ : Store} (h : sameData s₁ s₂) (i : String) :
    getEventByID s₁ i = getEventByID s₂ i := by
  unfold getEventByID
  rw [h.2.1]

theorem getEventDayByID_congr {s₁ s₂ : Store} (h : sameData s₁ s₂)
    (i : String) : getEventDayByID s₁ i = getEventDayByID s₂ i := by
  unfold getEventDayByID
  rw [h.2.2.1]

theorem getEventActionByCode_congr {s₁ s₂ : Store} (h : sameData s₁ s₂)
    (c : String) : getEventActionByCode s₁ c = getEventActionByCode s₂ c := by
  unfold getEventActionByCode
  rw [h.2.2.2.1]

theorem isPaidEvent_congr {s₁ s₂ : Store} (h : sameData s₁ s₂) (i : String) :
    isPaidEvent s₁ i = isPaidEvent s₂ i := by
  unfold isPaidEvent
  rw [getEventByID_congr h]

theorem checkEventDayValidity_congr {s₁ s₂ : Store} (h : sameData s₁ s₂)
    (now : Nat) (i : String) :
    checkEventDayValidity s₁ now i = checkEventDayValidity s₂ now i := by
  unfold checkEventDayValidity
  rw [getEventDayByID_congr h]

theorem extractParticipantFromQR_congr {s₁ s₂ : Store} (h : sameData s₁ s₂)
    (q : String) :
    extractParticipantFromQR s₁ q = extractParticipantFromQR s₂ q := by
  unfold extractParticipantFromQR getParticipantByID
  rw [h.2.2.2.2]

theorem getAndValidateAction_congr {s₁ s₂ : Store} (h : sameData s₁ s₂)
    (c : String) : getAndValidateAction s₁ c = getAndValidateAction s₂ c := by
  unfold getAndValidateAction
  rw [getEventActionByCode_congr h]

/-- `verify` leaves every table except `action_logs` unchanged. -/
theorem verify_sameData (s : Store) (now : Nat) (nid : String)
    (req : VerifyRequest) :
    sameData s (verifyParticipantAction s now nid req).2 := by
  unfold verifyParticipantAction
  cases verifyCompute s now nid req with
  | error e => exact sameData_refl s
  | ok log => exact ⟨rfl, rfl, rfl, rfl, rfl⟩

theorem runCalls_sameData (s : Store) (cs : List Call) :
    sameData s (runCalls s cs) := by
  induction cs generalizing s with
  | nil => exact sameData_refl s
  | cons c cs ih =>
    exact sameData_trans (verify_sameData s c.now c.newLogID c.req) (ih _)

/-- `verify` only ever appends to the `action_logs` table. -/
theorem verify_logs_append (s : Store) (now : Nat) (nid : String)
    (req : VerifyRequest) :
    ∃ t, (verifyParticipantAction s now nid req).2.logs = s.logs ++ t := by
  unfold verifyParticipantAction
  cases verifyCompute s now nid req with
  | error e => exact ⟨[], by simp⟩
  | ok log => exact ⟨[log], rfl⟩

theorem runCalls_logs_append (s : Store) (cs : List Call) :
    ∃ t, (runCalls s cs).logs = s.logs ++ t := by
  induction cs generalizing s with
  | nil => exact ⟨[], by simp [runCalls]⟩
  | cons c cs ih =>
    obtain ⟨t₁, h₁⟩ := verify_logs_append s c.now c.newLogID c.req
    obtain ⟨t₂, h₂⟩ := ih (verifyParticipantAction s c.now c.newLogID c.req).2
    exact ⟨t₁ ++ t₂, by simp [runCalls, h₂, h₁]⟩

theorem countLogs_append {s₁ s₂ : Store} {t : List ActionLog}
    (h : s₂.logs = s₁.logs ++ t) (pid aid : String) :
    countLogs s₂ pid aid =
      countLogs s₁ pid aid +
        t.countP (fun l => l.participantID = pid && l.actionID = aid) := by
  unfold countLogs
  rw [h, List.countP_append]

theorem hasActionLog_mono {s₁ s₂ : Store} {t : List ActionLog}
    (h : s₂.logs = s₁.logs ++ t) {pid aid : String}
    (hl : hasActionLog s₁ pid aid = true) : hasActionLog s₂ pid aid = true := by
  unfold hasActionLog at hl ⊢
  rw [countLogs_append h]
  simp only [decide_eq_true_eq] at hl ⊢
  omega

theorem verify_fst (s : Store) (now : Nat) (nid : String) (req : VerifyRequest) :
    (verifyParticipantAction s now nid req).1 = verifyCompute s now nid req := by
  unfold verifyParticipantAction
  cases verifyCompute s now nid req <;> rfl

theorem verify_of_compute_error {s : Store} {now : Nat} {nid : String}
    {req : VerifyRequest} {e : VError}
    (h : verifyCompute s now nid req = .error e) :
    verifyParticipantAction s now nid req = (.error e, s) := by
  unfold verifyParticipantAction
  rw [h]

theorem verify_of_compute_ok {s : Store} {now : Nat} {nid : String}
    {req : VerifyRequest} {log : ActionLog}
    (h : verifyCompute s now nid req = .ok log) :
    verifyParticipantAction s now nid req = (.ok log, createActionLog s log) := by
  unfold verifyParticipantAction
  rw [h]

theorem getParticipantByID_ok {s : Store} {i : String} {p : Participant}
    (h : getParticipantByID s i = .ok p) :
    s.participants.find? (fun x => x.id = i) = some p ∧ p.id = i := by
  unfold getParticipantByID at h
  split at h
  · next p' hf =>
    injection h with h'
    subst h'
    have := List.find?_some hf
    simp only [decide_eq_true_eq] at this
    exact ⟨hf, this⟩
  · exact absurd h (by simp)

theorem getEventActionByCode_ok {s : Store} {c : String} {a : EventAction}
    (h : getEventActionByCode s c = .ok a) :
    s.actions.find? (fun x => x.code = c && x.isActive) = some a ∧
      a.code = c ∧ a.isActive = true := by
  unfold getEventActionByCode at h
  split at h
  · exact absurd h (by simp)
  · split at h
    · next a' hf =>
      injection h with h'
      subst h'
      have := List.find?_some hf
      simp only [Bool.and_eq_true, decide_eq_true_eq] at this
      exact ⟨hf, this.1, this.2⟩
    · exact absurd h (by simp)

/-- The participant extracted from a QR payload is exactly the stored
participant with the extracted id. -/
theorem extractParticipantFromQR_ok {s : Store} {q : String} {p : Participant}
    (h : extractParticipantFromQR s q = .ok p) :
    s.participants.find? (fun x => x.id = p.id) = some p := by
  unfold extractParticipantFromQR at h
  split at h
  · exact absurd h (by simp)
  · next pid _ =>
    split at h
    · next p' hp =>
      injection h with h'
      subst h'
      obtain ⟨hf, hid⟩ := getParticipantByID_ok hp
      rw [hid]
      exact hf
    · split at h <;> exact absurd h (by simp)

theorem qrParticipantID_error_code {q : String} {e : VError}
    (h : qrParticipantID q = .error e) : e.code = .invalidQRCode := by
  unfold qrParticipantID at h
  split at h
  · exact absurd h (by simp)
  · split at h
    · exact absurd h (by simp)
    · injection h with h'; subst h'; rfl

theorem validateVerifyRequest_error_code {req : VerifyRequest} {e : VError}
    (h : validateVerifyRequest req = .error e) : e.code = .invalidInput := by
  unfold validateVerifyRequest at h
  split at h
  · injection h with h'; subst h'; rfl
  · split at h
    · injection h with h'; subst h'; rfl
    · split at h
      · injection h with h'; subst h'; rfl
      · exact absurd h (by simp)

theorem validateVerifyRequest_ok {req : VerifyRequest}
    (h₁ : req.qrCodeData ≠ "") (h₂ : req.actionCode ≠ "")
    (h₃ : req.verifierID ≠ "") : validateVerifyRequest req = .ok () := by
  unfold validateVerifyRequest
  simp [h₁, h₂, h₃]

theorem extractParticipantFromQR_error_code {s : Store} {q : String}
    {e : VError} (h : extractParticipantFromQR s q = .error e) :
    e.code = .invalidQRCode ∨ e.code = .participantNotFound ∨
      e.code = .databaseError := by
  unfold extractParticipantFromQR at h
  split at h
  · next e' he =>
    injection h with h'
    subst h'
    exact .inl (qrParticipantID_error_code he)
  · split at h
    · exact absurd h (by simp)
    · split at h
      · injection h with h'; subst h'; exact .inr (.inl rfl)
      · injection h with h'; subst h'; exact .inr (.inr rfl)

theorem getAndValidateAction_error_code {s : Store} {c : String} {e : VError}
    (h : getAndValidateAction s c = .error e) :
    e.code = .actionNotFound ∨ e.code = .databaseError ∨
      e.code = .actionInactive := by
  unfold getAndValidateAction at h
  split at h
  · split at h
    · injection h with h'; subst h'; exact .inl rfl
    · injection h with h'; subst h'; exact .inr (.inl rfl)
  · split at h
    · injection h with h'; subst h'; exact .inr (.inr rfl)
    · exact absurd h (by simp)

theorem getAndValidateAction_ok {s : Store} {c : String} {a : EventAction}
    (h : getAndValidateAction s c = .ok a) :
    getEventActionByCode s c = .ok a := by
  unfold getAndValidateAction at h
  split at h
  · split at h <;> exact absurd h (by simp)
  · next a' ha =>
    split at h
    · exact absurd h (by simp)
    · injection h with h'
      subst h'
      exact ha

theorem checkEventDayValidity_cases (s : Store) (now : Nat) (d : String) :
    checkEventDayValidity s now d = .ok () ∨
      ∃ m, checkEventDayValidity s now d = .error ⟨m, .eventNotStarted⟩ := by
  unfold checkEventDayValidity
  split
  · exact .inl rfl
  · split
    · exact .inr ⟨_, rfl⟩
    · exact .inl rfl

/-- What a passing gate run guarantees. -/
theorem checks_ok {s : Store} {now : Nat} {p : Participant} {a : EventAction}
    (h : performVerificationChecks s now p a = .ok ()) :
    ¬(isPaidEvent s p.eventID = true ∧ p.paymentStatus ≠ "paid") ∧
      hasActionLog s p.id a.id = false ∧ a.eventID = p.eventID := by
  unfold performVerificationChecks at h
  split at h
  · exact absurd h (by simp)
  · next hpay =>
    split at h
    · exact absurd h (by simp)
    · next hdup =>
      split at h
      · exact absurd h (by simp)
      · next hev =>
        refine ⟨?_, by simpa using hdup, ?_⟩
        · intro hcon
          exact hpay (by simp [hcon.1, hcon.2])
        · simpa using hev

/-- When the payment gate passes and a log already exists for the pair,
the gate run stops at `ALREADY_VERIFIED`. -/
theorem checks_alreadyVerified {s : Store} {now : Nat} {p : Participant}
    {a : EventAction}
    (hpay : ¬(isPaidEvent s p.eventID = true ∧ p.paymentStatus ≠ "paid"))
    (hdup : hasActionLog s p.id a.id = true) :
    performVerificationChecks s now p a =
      .error ⟨"already verified for action: " ++ a.name, .alreadyVerified⟩ := by
  have hc : (isPaidEvent s p.eventID && decide (p.paymentStatus ≠ "paid")) = false := by
    rcases Bool.eq_false_or_eq_true (isPaidEvent s p.eventID) with h1 | h1
    · by_cases h2 : p.paymentStatus = "paid"
      · simp [h2]
      · exact absurd ⟨h1, h2⟩ hpay
    · simp [h1]
  unfold performVerificationChecks
  rw [hc]
  simp [hdup]

/-- The gate run can only report `PAYMENT_REQUIRED` when the event is paid
and the participant has not paid, and the message carries the status. -/
theorem checks_paymentRequired_inv {s : Store} {now : Nat} {p : Participant}
    {a : EventAction} {m : String}
    (h : performVerificationChecks s now p a = .error ⟨m, .paymentRequired⟩) :
    isPaidEvent s p.eventID = true ∧ p.paymentStatus ≠ "paid" ∧
      m = "participant payment status is " ++ p.paymentStatus := by
  unfold performVerificationChecks at h
  split at h
  · next hpay =>
    simp only [Bool.and_eq_true, decide_eq_true_eq, ne_eq, decide_not,
      Bool.not_eq_true', decide_eq_false_iff_not] at hpay
    injection h with h'
    injection h' with hm _
    exact ⟨hpay.1, hpay.2, hm.symm⟩
  · split at h
    · exact absurd h (by simp)
    · split at h
      · exact absurd h (by simp)
      · rcases checkEventDayValidity_cases s now a.eventDayID with hc | ⟨m', hc⟩ <;>
          rw [hc] at h <;> exact absurd h (by simp)

/-- A successful `verifyCompute` decomposes into its five stages. -/
theorem verifyCompute_ok {s : Store} {now : Nat} {nid : String}
    {req : VerifyRequest} {log : ActionLog}
    (h : verifyCompute s now nid req = .ok log) :
    ∃ p a v, extractParticipantFromQR s req.qrCodeData = .ok p ∧
      getAndValidateAction s req.actionCode = .ok a ∧
      getUserByID s req.verifierID = .ok v ∧
      performVerificationChecks s now p a = .ok () ∧
      log = ⟨nid, p.id, a.id, v.id, now, now⟩ := by
  unfold verifyCompute at h
  split at h
  · exact absurd h (by simp)
  · split at h
    · exact absurd h (by simp)
    · next p hp =>
      split at h
      · exact absurd h (by simp)
      · next a ha =>
        split at h
        · exact absurd h (by simp)
        · next v hv =>
          split at h
          · exact absurd h (by simp)
          · next u hchecks =>
            injection h with h'
            exact ⟨p, a, v, hp, ha, hv, by rw [hchecks], h'.symm⟩

/-- A `PAYMENT_REQUIRED` outcome of `verifyCompute` comes from the gate
run on the extracted participant. -/
theorem verifyCompute_paymentRequired {s : Store} {now : Nat} {nid : String}
    {req : VerifyRequest} {m : String}
    (h : verifyCompute s now nid req = .error ⟨m, .paymentRequired⟩) :
    ∃ p a, extractParticipantFromQR s req.qrCodeData = .ok p ∧
      performVerificationChecks s now p a = .error ⟨m, .paymentRequired⟩ := by
  unfold verifyCompute at h
  split at h
  · next e he =>
    injection h with h'
    subst h'
    exact absurd (validateVerifyRequest_error_code he) (by simp)
  · split at h
    · next e he =>
      injection h with h'
      subst h'
      rcases extractParticipantFromQR_error_code he with hc | hc | hc <;>
        simp at hc
    · next p hp =>
      split at h
      · next e he =>
        injection h with h'
        subst h'
        rcases getAndValidateAction_error_code he with hc | hc | hc <;>
          simp at hc
      · next a ha =>
        split at h
        · exact absurd h (by simp)
        · split at h
          · next e he =>
            injection h with h'
            subst h'
            exact ⟨p, a, hp, he⟩
          · exact absurd h (by simp)

theorem hasActionLog_false_iff {s : Store} {pid aid : String} :
    hasActionLog s pid aid = false ↔ countLogs s pid aid = 0 := by
  unfold hasActionLog
  simp only [decide_eq_false_iff_not, not_lt, Nat.le_zero]

/-- Appending a log for the pair makes `hasActionLog` true. -/
theorem hasActionLog_append_self {s : Store} {log : ActionLog}
    {pid aid : String} (hpid : log.participantID = pid)
    (haid : log.actionID = aid) :
    hasActionLog (createActionLog s log) pid aid = true := by
  unfold hasActionLog
  rw [countLogs_append
    (show (createActionLog s log).logs = s.logs ++ [log] from rfl)]
  simp [List.countP_cons, hpid, haid]

/-- A `verify` that returned success performed the whole gate run on the
pair it logged. -/
theorem succeedsFor_iff {s : Store} {c : Call} {pid aid : String} :
    succeedsFor s c pid aid = true ↔
      ∃ log, verifyCompute s c.now c.newLogID c.req = .ok log ∧
        log.participantID = pid ∧ log.actionID = aid := by
  unfold succeedsFor
  rw [verify_fst]
  cases verifyCompute s c.now c.newLogID c.req <;> simp

/-- Once a log exists for the pair, no `verify` call can succeed for it
again: the duplicate gate would have had to report the pair as fresh. -/
theorem no_second_success {s : Store} {c : Call} {pid aid : String}
    (hlog : hasActionLog s pid aid = true) :
    succeedsFor s c pid aid = false := by
  rw [Bool.eq_false_iff]
  intro hs
  obtain ⟨log, hcompute, hpid, haid⟩ := succeedsFor_iff.mp hs
  obtain ⟨p, a, v, _, _, _, hchecks, hlogdef⟩ := verifyCompute_ok hcompute
  have hdup := (checks_ok hchecks).2.1
  rw [hlogdef] at hpid haid
  simp only at hpid haid
  rw [hpid, haid] at hdup
  rw [hlog] at hdup
  exact absurd hdup (by simp)

/-- One `verify` step preserves the at-most-one invariant. -/
theorem verify_preserves_inv (s : Store) (now : Nat) (nid : String)
    (req : VerifyRequest) (h : AtMostOnePerPair s) :
    AtMostOnePerPair (verifyParticipantAction s now nid req).2 := by
  cases hc : verifyCompute s now nid req with
  | error e =>
    rw [verify_of_compute_error hc]
    exact h
  | ok log =>
    rw [verify_of_compute_ok hc]
    obtain ⟨p, a, v, _, _, _, hchecks, hlogdef⟩ := verifyCompute_ok hc
    have hdup := (checks_ok hchecks).2.1
    intro pid aid
    rw [countLogs_append
      (show (createActionLog s log).logs = s.logs ++ [log] from rfl)]
    by_cases hm : log.participantID = pid ∧ log.actionID = aid
    · have e1 : pid = p.id := by rw [← hm.1, hlogdef]
      have e2 : aid = a.id := by rw [← hm.2, hlogdef]
      have hzero : countLogs s pid aid = 0 := by
        rw [e1, e2]
        exact hasActionLog_false_iff.mp hdup
      simp [List.countP_cons, hm.1, hm.2, hzero]
    · have : [log].countP
          (fun l => l.participantID = pid && l.actionID = aid) = 0 := by
        rcases not_and_or.mp hm with hni | hni <;>
          simp [List.countP_cons, hni]
      rw [this]
      simpa using h pid aid

theorem runCalls_preserves_inv (s : Store) (cs : List Call)
    (h : AtMostOnePerPair s) : AtMostOnePerPair (runCalls s cs) := by
  induction cs generalizing s with
  | nil => exact h
  | cons c cs ih =>
    exact ih _ (verify_preserves_inv s c.now c.newLogID c.req h)

/-- Unpack `resolvesTo` into its six resolution facts. -/
theorem resolvesTo_elim {s : Store} {c : Call} {pid aid : String}
    (h : resolvesTo s c pid aid = true) :
    c.req.qrCodeData ≠ "" ∧ c.req.actionCode ≠ "" ∧ c.req.verifierID ≠ "" ∧
      (∃ p, extractParticipantFromQR s c.req.qrCodeData = .ok p ∧ p.id = pid) ∧
      (∃ a, getAndValidateAction s c.req.actionCode = .ok a ∧ a.id = aid) ∧
      (∃ v, getUserByID s c.req.verifierID = .ok v) := by
  unfold resolvesTo at h
  simp only [Bool.and_eq_true, ne_eq, decide_not, Bool.not_eq_true',
    decide_eq_false_iff_not] at h
  obtain ⟨⟨⟨⟨⟨h1, h2⟩, h3⟩, h4⟩, h5⟩, h6⟩ := h
  refine ⟨h1, h2, h3, ?_, ?_, ?_⟩
  · cases hx : extractParticipantFromQR s c.req.qrCodeData with
    | ok p =>
      rw [hx] at h4
      exact ⟨p, rfl, by simpa using h4⟩
    | error e => rw [hx] at h4; exact absurd h4 (by simp)
  · cases hx : getAndValidateAction s c.req.actionCode with
    | ok a =>
      rw [hx] at h5
      exact ⟨a, rfl, by simpa using h5⟩
    | error e => rw [hx] at h5; exact absurd h5 (by simp)
  · cases hx : getUserByID s c.req.verifierID with
    | ok v => exact ⟨v, rfl⟩
    | error e => rw [hx] at h6; exact absurd h6 (by simp)

/-- A resolving repeat call on a store that already holds a log for the
pair (and whose participant passes the payment gate) stops with
`ALREADY_VERIFIED` and writes nothing. -/
theorem verify_repeat {s : Store} {c : Call} {pid aid : String}
    {p : Participant}
    (h1 : c.req.qrCodeData ≠ "") (h2 : c.req.actionCode ≠ "")
    (h3 : c.req.verifierID ≠ "")
    (hx : extractParticipantFromQR s c.req.qrCodeData = .ok p)
    (hpid : p.id = pid)
    (ha : ∃ a, getAndValidateAction s c.req.actionCode = .ok a ∧ a.id = aid)
    (hu : ∃ v, getUserByID s c.req.verifierID = .ok v)
    (hpay : ¬(isPaidEvent s p.eventID = true ∧ p.paymentStatus ≠ "paid"))
    (hlog : hasActionLog s pid aid = true) :
    (∃ m, (verifyParticipantAction s c.now c.newLogID c.req).1 =
        .error ⟨m, .alreadyVerified⟩) ∧
      (verifyParticipantAction s c.now c.newLogID c.req).2 = s := by
  obtain ⟨a, ha, haid⟩ := ha
  obtain ⟨v, hv⟩ := hu
  have hlog' : hasActionLog s p.id a.id = true := by
    rw [hpid, haid]
    exact hlog
  have hchecks : performVerificationChecks s c.now p a =
      .error ⟨"already verified for action: " ++ a.name, .alreadyVerified⟩ :=
    checks_alreadyVerified hpay hlog'
  have hcompute : verifyCompute s c.now c.newLogID c.req =
      .error ⟨"already verified for action: " ++ a.name, .alreadyVerified⟩ := by
    simp only [verifyCompute, validateVerifyRequest_ok h1 h2 h3, hx, ha, hv,
      hchecks]
  rw [verify_of_compute_error hcompute]
  exact ⟨⟨_, rfl⟩, rfl⟩

theorem getEventActionByID_ok {s : Store} {i : String} {a : EventAction}
    (h : getEventActionByID s i = .ok a) :
    s.actions.find? (fun x => x.id = i) = some a ∧ a.id = i := by
  unfold getEventActionByID at h
  split at h
  · exact absurd h (by simp)
  · split at h
    · next a' hf =>
      injection h with h'
      subst h'
      have := List.find?_some hf
      simp only [decide_eq_true_eq] at this
      exact ⟨hf, this⟩
    · exact absurd h (by simp)

/-- The Boolean payment-gate condition is false exactly when the
propositional payment gate passes. -/
theorem payment_gate_false {s : Store} {p : Participant}
    (hpay : ¬(isPaidEvent s p.eventID = true ∧ p.paymentStatus ≠ "paid")) :
    (isPaidEvent s p.eventID && decide (p.paymentStatus ≠ "paid")) = false := by
  rcases Bool.eq_false_or_eq_true (isPaidEvent s p.eventID) with h1 | h1
  · by_cases h2 : p.paymentStatus = "paid"
    · simp [h2]
    · exact absurd ⟨h1, h2⟩ hpay
  · simp [h1]

theorem payment_gate_false_inv {s : Store} {p : Participant}
    (hc : (isPaidEvent s p.eventID && decide (p.paymentStatus ≠ "paid")) = false) :
    ¬(isPaidEvent s p.eventID = true ∧ p.paymentStatus ≠ "paid") := by
  rintro ⟨h1, h2⟩
  simp [h1, h2] at hc

/-- A true payment-gate condition makes the gate run stop at
`PAYMENT_REQUIRED` with the status in the message. -/
theorem checks_payment_fire {s : Store} {now : Nat} {p : Participant}
    {a : EventAction}
    (hc : (isPaidEvent s p.eventID && decide (p.paymentStatus ≠ "paid")) = true) :
    performVerificationChecks s now p a =
      .error ⟨"participant payment status is " ++ p.paymentStatus,
        .paymentRequired⟩ := by
  unfold performVerificationChecks
  simp only [ne_eq, decide_not] at hc ⊢
  rw [hc]
  simp

/-- When the payment and duplicate gates pass, an event mismatch makes the
gate run stop at `EVENT_MISMATCH`. -/
theorem checks_mismatch_fire {s : Store} {now : Nat} {p : Participant}
    {a : EventAction}
    (hpay : ¬(isPaidEvent s p.eventID = true ∧ p.paymentStatus ≠ "paid"))
    (hdup : hasActionLog s p.id a.id = false)
    (hmm : a.eventID ≠ p.eventID) :
    performVerificationChecks s now p a =
      .error ⟨"action does not belong to participant's event",
        .eventMismatch⟩ := by
  have hc := payment_gate_false hpay
  unfold performVerificationChecks
  simp only [ne_eq, decide_not] at hc ⊢
  rw [hc]
  simp [hdup, hmm]

/-- When all three non-temporal gates pass, the gate run is exactly the
temporal gate. -/
theorem checks_reduce_to_temporal {s : Store} {now : Nat} {p : Participant}
    {a : EventAction}
    (hpay : ¬(isPaidEvent s p.eventID = true ∧ p.paymentStatus ≠ "paid"))
    (hdup : hasActionLog s p.id a.id = false)
    (hev : a.eventID = p.eventID) :
    performVerificationChecks s now p a =
      checkEventDayValidity s now a.eventDayID := by
  have hc := payment_gate_false hpay
  unfold performVerificationChecks
  simp only [ne_eq, decide_not] at hc ⊢
  rw [hc]
  simp [hdup, hev]

/-- `CanVerifyParticipant`, written as its three-gate decision once both
lookups succeed. -/
theorem canVerify_char {s : Store} {pid aid : String} {p : Participant}
    {a : EventAction} (hpid : pid ≠ "") (haid : aid ≠ "")
    (hp : getParticipantByID s pid = .ok p)
    (ha : getEventActionByID s aid = .ok a) :
    canVerifyParticipant s pid aid =
      (if isPaidEvent s p.eventID && decide (p.paymentStatus ≠ "paid") then
        .error ⟨"participant has not paid", .paymentRequired⟩
      else if hasActionLog s pid aid then
        .error ⟨"already verified for this action", .alreadyVerified⟩
      else if a.eventID ≠ p.eventID then
        .error ⟨"action does not belong to participant's event", .eventMismatch⟩
      else .ok ()) := by
  have hc0 : (decide (pid = "") || decide (aid = "")) = false := by
    simp [hpid, haid]
  unfold canVerifyParticipant
  simp only [hc0, Bool.false_eq_true, if_false, hp, ha]

/-- Two successful extractions over the same participant table that agree
on the id agree on the participant. -/
theorem extract_unique {s₁ s₂ : Store} (hsd : sameData s₁ s₂)
    {q₁ q₂ : String} {p₁ p₂ : Participant}
    (h₁ : extractParticipantFromQR s₁ q₁ = .ok p₁)
    (h₂ : extractParticipantFromQR s₂ q₂ = .ok p₂)
    (hid : p₁.id = p₂.id) : p₁ = p₂ := by
  have f₁ := extractParticipantFromQR_ok h₁
  have f₂ := extractParticipantFromQR_ok h₂
  rw [hid, hsd.2.2.2.2, f₂] at f₁
  exact (Option.some.inj f₁).symm

end Smses

/-! ## The claims -/

namespace Smses

/-- C1 (at-most-once redemption): over any sequential series of `verify`
calls on one store, (i) after a call succeeds for a (participant, action)
pair, no later call can succeed for that pair again; (ii) every later call
that resolves to that pair fails with `ALREADY_VERIFIED` and leaves the
store untouched; and (iii) starting from a store with at most one
`ActionLog` per pair, every store reachable by `verify` calls still has at
most one `ActionLog` per pair. -/
theorem c1_at_most_once_redemption
    (s0 : Store) (pre : List Call) (c : Call) (mid : List Call) (c2 : Call)
    (pid aid : String) (cs : List Call) :
    (succeedsFor (runCalls s0 pre) c pid aid = true →
      succeedsFor
          (runCalls
            (verifyParticipantAction (runCalls s0 pre) c.now c.newLogID c.req).2
            mid) c2 pid aid = false ∧
        (resolvesTo
            (runCalls
              (verifyParticipantAction (runCalls s0 pre) c.now c.newLogID
                c.req).2 mid) c2 pid aid = true →
          (∃ m,
            (verifyParticipantAction
                (runCalls
                  (verifyParticipantAction (runCalls s0 pre) c.now c.newLogID
                    c.req).2 mid) c2.now c2.newLogID c2.req).1 =
              .error ⟨m, .alreadyVerified⟩) ∧
            (verifyParticipantAction
                (runCalls
                  (verifyParticipantAction (runCalls s0 pre) c.now c.newLogID
                    c.req).2 mid) c2.now c2.newLogID c2.req).2 =
              runCalls
                (verifyParticipantAction (runCalls s0 pre) c.now c.newLogID
                  c.req).2 mid)) ∧
      (AtMostOnePerPair s0 → AtMostOnePerPair (runCalls s0 cs)) := by
  refine ⟨?_, fun h => runCalls_preserves_inv s0 cs h⟩
  intro hs
  set s1 := runCalls s0 pre with hs1
  set s1' := (verifyParticipantAction s1 c.now c.newLogID c.req).2 with hs1'
  set s2 := runCalls s1' mid with hs2
  obtain ⟨log, hcompute, hpidlog, haidlog⟩ := succeedsFor_iff.mp hs
  obtain ⟨p, a, v, hp, ha, hv, hchecks, hlogdef⟩ := verifyCompute_ok hcompute
  have hpay1 := (checks_ok hchecks).1
  have hstore : s1' = createActionLog s1 log := by
    rw [hs1', verify_of_compute_ok hcompute]
  have hlog1 : hasActionLog s1' pid aid = true := by
    rw [hstore]
    exact hasActionLog_append_self hpidlog haidlog
  obtain ⟨t, ht⟩ := runCalls_logs_append s1' mid
  have hlog2 : hasActionLog s2 pid aid = true := hasActionLog_mono ht hlog1
  refine ⟨no_second_success hlog2, ?_⟩
  intro hres
  obtain ⟨h1, h2, h3, ⟨p2, hx2, hpid2⟩, ha2, hu2⟩ := resolvesTo_elim hres
  have hsd : sameData s1 s2 :=
    sameData_trans (verify_sameData s1 c.now c.newLogID c.req)
      (runCalls_sameData s1' mid)
  have hidp : p.id = pid := by
    rw [hlogdef] at hpidlog
    exact hpidlog
  have hpeq : p = p2 := extract_unique hsd hp hx2 (hidp.trans hpid2.symm)
  have hpay2 : ¬(isPaidEvent s2 p2.eventID = true ∧ p2.paymentStatus ≠ "paid") := by
    rw [← hpeq, ← isPaidEvent_congr hsd]
    exact hpay1
  exact verify_repeat h1 h2 h3 hx2 hpid2 ha2 hu2 hpay2 hlog2

/-- Witness for C1 at a concrete store: the first call succeeds, the
repeat call cannot succeed, it reports `ALREADY_VERIFIED`, and the
invariant holds after both calls. -/
theorem c1_witness :
    succeedsFor (runCalls wStore []) wCall pid1 "a1" = true ∧
      succeedsFor
          (runCalls
            (verifyParticipantAction (runCalls wStore []) wCall.now
              wCall.newLogID wCall.req).2 []) wCall2 pid1 "a1" = false ∧
      (∃ m,
        (verifyParticipantAction
            (runCalls
              (verifyParticipantAction (runCalls wStore []) wCall.now
                wCall.newLogID wCall.req).2 []) wCall2.now wCall2.newLogID
            wCall2.req).1 = .error ⟨m, .alreadyVerified⟩) ∧
      AtMostOnePerPair (runCalls wStore [wCall, wCall2]) := by
  have h := c1_at_most_once_redemption wStore [] wCall [] wCall2 pid1 "a1"
    [wCall, wCall2]
  have hs : succeedsFor (runCalls wStore []) wCall pid1 "a1" = true := by
    decide
  have hres : resolvesTo
      (runCalls
        (verifyParticipantAction (runCalls wStore []) wCall.now wCall.newLogID
          wCall.req).2 []) wCall2 pid1 "a1" = true := by decide
  have hinv : AtMostOnePerPair wStore := by
    intro pid aid
    simp [countLogs, wStore]
  exact ⟨hs, (h.1 hs).1, ((h.1 hs).2 hres).1, h.2 hinv⟩

/-- The event record of `wStore`'s paid event `e1`. -/
def wEvent1 : Event := ⟨"e1", "Conf", "conf", 10, true⟩

/-- The action record of `wStore`. -/
def wAction1 : EventAction := ⟨"a1", "e1", "d1", "Check-in", "CHK", true⟩

/-- The event day record of `wStore`. -/
def wDay1 : EventDay := ⟨"d1", "e1", 1, "Day 1", 0⟩

/-- An unpaid participant of the paid event `e1` (used as a direct input
to the gate run). -/
def wUnpaid : Participant := ⟨pid2, "e1", "Bob", "b@x", "unpaid"⟩

/-- C2 (payment gating): when the participant's event resolves and has a
positive ticket price, the gate run fails with `PAYMENT_REQUIRED` exactly
when the payment status is not "paid", and the failure message carries the
current status; when the resolved event's ticket price is 0, no payment
status ever produces `PAYMENT_REQUIRED`. -/
theorem c2_payment_gating (s : Store) (now : Nat) (p : Participant)
    (a : EventAction) (e : Event) (he : getEventByID s p.eventID = .ok e) :
    (0 < e.ticketPrice →
      ((∃ m, performVerificationChecks s now p a =
          .error ⟨m, .paymentRequired⟩) ↔ p.paymentStatus ≠ "paid") ∧
      (p.paymentStatus ≠ "paid" →
        performVerificationChecks s now p a =
          .error ⟨"participant payment status is " ++ p.paymentStatus,
            .paymentRequired⟩)) ∧
    (e.ticketPrice = 0 →
      ∀ m, performVerificationChecks s now p a ≠
        .error ⟨m, .paymentRequired⟩) := by
  have hpe : isPaidEvent s p.eventID = decide (0 < e.ticketPrice) := by
    unfold isPaidEvent
    rw [he]
  constructor
  · intro hprice
    have hpe' : isPaidEvent s p.eventID = true := by
      rw [hpe]
      simpa using hprice
    have hfire : ∀ hnp : p.paymentStatus ≠ "paid",
        performVerificationChecks s now p a =
          .error ⟨"participant payment status is " ++ p.paymentStatus,
            .paymentRequired⟩ := by
      intro hnp
      have hc : (isPaidEvent s p.eventID &&
          decide (p.paymentStatus ≠ "paid")) = true := by
        simp [hpe', hnp]
      unfold performVerificationChecks
      simp only [ne_eq, decide_not] at hc ⊢
      rw [hc]
      simp
    refine ⟨⟨?_, fun hnp => ⟨_, hfire hnp⟩⟩, hfire⟩
    rintro ⟨m, hm⟩
    exact (checks_paymentRequired_inv hm).2.1
  · intro hzero m hcon
    have := (checks_paymentRequired_inv hcon).1
    rw [hpe, hzero] at this
    simp at this

/-- Witness for C2: on `wStore`'s paid event, the gate run on an unpaid
participant fails with `PAYMENT_REQUIRED` carrying the status. -/
theorem c2_witness :
    0 < wEvent1.ticketPrice ∧
      performVerificationChecks wStore 5 wUnpaid wAction1 =
        .error ⟨"participant payment status is " ++ wUnpaid.paymentStatus,
          .paymentRequired⟩ :=
  ⟨by decide,
    ((c2_payment_gating wStore 5 wUnpaid wAction1 wEvent1 rfl).1
      (by decide)).2 (by decide)⟩

/-- C7 (temporal gate with fail-open fallback): when the action's event
day resolves, the temporal gate fails with `EVENT_NOT_STARTED` exactly
when now is before the day's date truncated to the day boundary; when the
event day cannot be resolved, the gate is skipped and passes. -/
theorem c7_temporal_gate (s : Store) (now : Nat) (dayID : String) :
    (∀ d, getEventDayByID s dayID = .ok d →
      ((∃ m, checkEventDayValidity s now dayID =
          .error ⟨m, .eventNotStarted⟩) ↔ now < truncateDay d.date)) ∧
    ((∃ re, getEventDayByID s dayID = .error re) →
      checkEventDayValidity s now dayID = .ok ()) := by
  constructor
  · intro d hd
    unfold checkEventDayValidity
    rw [hd]
    by_cases hlt : now < truncateDay d.date <;> simp [hlt]
  · rintro ⟨re, hre⟩
    unfold checkEventDayValidity
    rw [hre]

/-- Witness for C7: on `wStore`, the resolved day `d1` (date 0) does not
block at time 5, and an unresolvable day id passes the gate. -/
theorem c7_witness :
    (((∃ m, checkEventDayValidity wStore 5 "d1" =
        .error ⟨m, .eventNotStarted⟩) ↔ 5 < truncateDay wDay1.date)) ∧
      checkEventDayValidity wStore 5 "ghost-day" = .ok () :=
  ⟨(c7_temporal_gate wStore 5 "d1").1 wDay1 rfl,
    (c7_temporal_gate wStore 5 "ghost-day").2 ⟨_, rfl⟩⟩

/-- A store whose only participant references an event id (`ghost`) with
no event row, so the payment gate's event fetch fails. -/
def c10Store : Store :=
  { users := [⟨"v1", "v@x", "staff"⟩]
    events := []
    eventDays := [⟨"d1", "ghost", 1, "Day 1", 0⟩]
    actions := [⟨"a1", "ghost", "d1", "Check-in", "CHK", true⟩]
    participants := [⟨pid2, "ghost", "Bob", "b@x", "unpaid"⟩]
    logs := [] }

/-- C10 (implicit payment-gate fail-open): when the extracted (resp.
looked-up) participant's event record cannot be fetched, neither `verify`
nor `canVerify` can fail with `PAYMENT_REQUIRED`, whatever the payment
status. -/
theorem c10_payment_gate_fail_open (s : Store) (now : Nat) (nid : String)
    (req : VerifyRequest) (pid aid : String) (p q : Participant) :
    (extractParticipantFromQR s req.qrCodeData = .ok p →
      (∃ re, getEventByID s p.eventID = .error re) →
      ∀ m, (verifyParticipantAction s now nid req).1 ≠
        .error ⟨m, .paymentRequired⟩) ∧
    (getParticipantByID s pid = .ok q →
      (∃ re, getEventByID s q.eventID = .error re) →
      ∀ m, canVerifyParticipant s pid aid ≠
        .error ⟨m, .paymentRequired⟩) := by
  constructor
  · rintro hx ⟨re, he⟩ m hcon
    rw [verify_fst] at hcon
    obtain ⟨p', a', hx', hch⟩ := verifyCompute_paymentRequired hcon
    rw [hx] at hx'
    have hp' : p' = p := (Except.ok.inj hx').symm
    have hpaid := (checks_paymentRequired_inv hch).1
    rw [hp'] at hpaid
    unfold isPaidEvent at hpaid
    rw [he] at hpaid
    exact absurd hpaid (by simp)
  · rintro hq ⟨re, he⟩ m hcon
    have hfree : isPaidEvent s q.eventID = false := by
      unfold isPaidEvent
      rw [he]
    unfold canVerifyParticipant at hcon
    split at hcon
    · exact absurd hcon (by simp)
    · split at hcon
      · exact absurd hcon (by simp)
      · next q' hq' =>
        rw [hq] at hq'
        have hqq : q = q' := Except.ok.inj hq'
        split at hcon
        · exact absurd hcon (by simp)
        · next a' ha' =>
          split at hcon
          · next hcond =>
            rw [← hqq, hfree] at hcond
            exact absurd hcond (by simp)
          · split at hcon
            · exact absurd hcon (by simp)
            · split at hcon
              · exact absurd hcon (by simp)
              · exact absurd hcon (by simp)

/-- Witness for C10 on `c10Store`: the unpaid participant whose event is
missing is never blocked by the payment gate, in `verify` or in
`canVerify`. -/
theorem c10_witness :
    (verifyParticipantAction c10Store 5 "log1" ⟨pid2, "CHK", "v1"⟩).1 ≠
        .error ⟨"participant payment status is unpaid", .paymentRequired⟩ ∧
      canVerifyParticipant c10Store pid2 "a1" ≠
        .error ⟨"participant has not paid", .paymentRequired⟩ :=
  ⟨(c10_payment_gate_fail_open c10Store 5 "log1" ⟨pid2, "CHK", "v1"⟩ pid2 "a1"
      ⟨pid2, "ghost", "Bob", "b@x", "unpaid"⟩
      ⟨pid2, "ghost", "Bob", "b@x", "unpaid"⟩).1 rfl ⟨_, rfl⟩ _,
    (c10_payment_gate_fail_open c10Store 5 "log1" ⟨pid2, "CHK", "v1"⟩ pid2 "a1"
      ⟨pid2, "ghost", "Bob", "b@x", "unpaid"⟩
      ⟨pid2, "ghost", "Bob", "b@x", "unpaid"⟩).2 rfl ⟨_, rfl⟩ _⟩

/-- A store with a paid event `e1` holding an unpaid participant, and an
active action that belongs to a DIFFERENT event `e2`. -/
def c4Store : Store :=
  { users := [⟨"v1", "v@x", "staff"⟩]
    events := [⟨"e1", "Paid", "paid", 10, true⟩, ⟨"e2", "Other", "other", 0, true⟩]
    eventDays := [⟨"d2", "e2", 1, "Day 1", 0⟩]
    actions := [⟨"a2", "e2", "d2", "Lunch", "LUN", true⟩]
    participants := [⟨pid2, "e1", "Bob", "b@x", "unpaid"⟩]
    logs := [] }

/-- Counterexample to C4 as stated: a `verify` call whose resolved
action's event differs from the participant's event does NOT fail with
`EVENT_MISMATCH` when the participant also fails the payment gate — the
payment gate is checked first and the call fails with
`PAYMENT_REQUIRED`. -/
theorem c4_counterexample :
    (∃ p a, extractParticipantFromQR c4Store pid2 = .ok p ∧
      getAndValidateAction c4Store "LUN" = .ok a ∧ a.eventID ≠ p.eventID) ∧
      (verifyParticipantAction c4Store 5 "log1" ⟨pid2, "LUN", "v1"⟩).1 =
        .error ⟨"participant payment status is unpaid", .paymentRequired⟩ := by
  constructor
  · exact ⟨⟨pid2, "e1", "Bob", "b@x", "unpaid"⟩,
      ⟨"a2", "e2", "d2", "Lunch", "LUN", true⟩, rfl, rfl, by decide⟩
  · rfl

/-- C4 amended (event-consistency gate): whenever the payment gate and the
duplicate gate pass, a mismatch between the action's event and the
participant's event makes the gate run fail with `EVENT_MISMATCH` (the
mismatch check precedes only the temporal gate; it does NOT preempt the
payment or duplicate gates). -/
theorem c4_event_mismatch (s : Store) (now : Nat) (p : Participant)
    (a : EventAction)
    (hpay : ¬(isPaidEvent s p.eventID = true ∧ p.paymentStatus ≠ "paid"))
    (hdup : hasActionLog s p.id a.id = false)
    (hmm : a.eventID ≠ p.eventID) :
    performVerificationChecks s now p a =
      .error ⟨"action does not belong to participant's event",
        .eventMismatch⟩ := by
  have hc : (isPaidEvent s p.eventID && decide (p.paymentStatus ≠ "paid")) = false := by
    rcases Bool.eq_false_or_eq_true (isPaidEvent s p.eventID) with h1 | h1
    · by_cases h2 : p.paymentStatus = "paid"
      · simp [h2]
      · exact absurd ⟨h1, h2⟩ hpay
    · simp [h1]
  unfold performVerificationChecks
  simp only [ne_eq, decide_not] at hc ⊢
  rw [hc]
  simp [hdup, hmm]

/-- Witness for the amended C4: a paid participant of `e1` redeeming the
`e2`-owned action on `c4Store` gets `EVENT_MISMATCH`. -/
theorem c4_witness :
    performVerificationChecks c4Store 5 ⟨pid2, "e1", "Bob", "b@x", "paid"⟩
        ⟨"a2", "e2", "d2", "Lunch", "LUN", true⟩ =
      .error ⟨"action does not belong to participant's event",
        .eventMismatch⟩ :=
  c4_event_mismatch c4Store 5 ⟨pid2, "e1", "Bob", "b@x", "paid"⟩
    ⟨"a2", "e2", "d2", "Lunch", "LUN", true⟩ (by decide) (by decide) (by decide)

/-- Counterexample to C8 as stated: with an admin caller and a target id
for which NO `ActionLog` exists, `RevertVerification` still answers
`NOT_IMPLEMENTED` — it never validates that the target exists. -/
theorem c8_counterexample :
    getUserByID wStore "adm1" = .ok ⟨"adm1", "a@x", "admin"⟩ ∧
      wStore.logs.find? (fun l => l.id = "ver1") = none ∧
      revertVerification wStore "ver1" "adm1" =
        (⟨"revert verification not yet implemented", .notImplemented⟩,
          wStore) := by
  exact ⟨rfl, rfl, rfl⟩

/-- C8 amended (revocation contract): an unresolvable caller gets
`VERIFIER_NOT_FOUND`, a resolvable non-admin gets `PERMISSION_DENIED`, an
admin gets `NOT_IMPLEMENTED` whether or not the target `ActionLog` exists
(no existence validation is performed), and the store is unchanged on
every path. -/
theorem c8_revert_contract (s : Store) (vid aid : String) (hv : vid ≠ "")
    (ha : aid ≠ "") :
    (∀ re, getUserByID s aid = .error re →
      revertVerification s vid aid =
        (⟨"admin user not found", .verifierNotFound⟩, s)) ∧
    (∀ u, getUserByID s aid = .ok u → u.role ≠ "admin" →
      revertVerification s vid aid =
        (⟨"only admin users can revert verifications", .permissionDenied⟩, s)) ∧
    (∀ u, getUserByID s aid = .ok u → u.role = "admin" →
      revertVerification s vid aid =
        (⟨"revert verification not yet implemented", .notImplemented⟩, s)) ∧
    (revertVerification s vid aid).2 = s := by
  have hc : (decide (vid = "") || decide (aid = "")) = false := by
    simp [hv, ha]
  unfold revertVerification
  simp only [hc, Bool.false_eq_true, if_false]
  refine ⟨?_, ?_, ?_, ?_⟩
  · intro re hre
    rw [hre]
  · intro u hu hrole
    rw [hu]
    simp [hrole]
  · intro u hu hrole
    rw [hu]
    simp [hrole]
  · split
    · rfl
    · split <;> rfl

/-- Witness for the amended C8 on `wStore`: the staff caller is refused
with `PERMISSION_DENIED` and the admin caller reaches `NOT_IMPLEMENTED`;
the store is unchanged. -/
theorem c8_witness :
    revertVerification wStore "ver1" "v1" =
        (⟨"only admin users can revert verifications", .permissionDenied⟩,
          wStore) ∧
      revertVerification wStore "ver1" "adm1" =
        (⟨"revert verification not yet implemented", .notImplemented⟩,
          wStore) ∧
      (revertVerification wStore "ver1" "adm1").2 = wStore :=
  ⟨(c8_revert_contract wStore "ver1" "v1" (by decide) (by decide)).2.1
      ⟨"v1", "v@x", "staff"⟩ rfl (by decide),
    (c8_revert_contract wStore "ver1" "adm1" (by decide) (by decide)).2.2.1
      ⟨"adm1", "a@x", "admin"⟩ rfl rfl,
    (c8_revert_contract wStore "ver1" "adm1" (by decide) (by decide)).2.2.2⟩

/-- A store whose free event `e1` has an active action on a FUTURE event
day (date = day 3, so any clock before day 3 is too early). -/
def c9Store : Store :=
  { users := [⟨"v1", "v@x", "staff"⟩]
    events := [⟨"e1", "Free", "free", 0, true⟩]
    eventDays := [⟨"d1", "e1", 1, "Day 1", 3 * nanosPerDay⟩]
    actions := [⟨"a1", "e1", "d1", "Check-in", "CHK", true⟩]
    participants := [⟨pid1, "e1", "Ann", "a@x", "unpaid"⟩]
    logs := [] }

/-- Counterexample to C9 as stated: on `c9Store` the dry run
`CanVerifyParticipant` answers true, but `verify`'s eligibility evaluator
denies the same (participant, action) pair with `EVENT_NOT_STARTED` — the
dry run does not apply the temporal gate. -/
theorem c9_counterexample :
    canVerifyParticipant c9Store pid1 "a1" = .ok () ∧
      (∃ p a, extractParticipantFromQR c9Store pid1 = .ok p ∧ p.id = pid1 ∧
        getAndValidateAction c9Store "CHK" = .ok a ∧ a.id = "a1") ∧
      (verifyParticipantAction c9Store nanosPerDay "log1"
          ⟨pid1, "CHK", "v1"⟩).1 =
        .error ⟨"verification not allowed before event day",
          .eventNotStarted⟩ ∧
      (verifyParticipantAction c9Store nanosPerDay "log1"
          ⟨pid1, "CHK", "v1"⟩).2 = c9Store := by
  refine ⟨rfl, ⟨⟨pid1, "e1", "Ann", "a@x", "unpaid"⟩,
    ⟨"a1", "e1", "d1", "Check-in", "CHK", true⟩, rfl, rfl, rfl, rfl⟩, rfl, rfl⟩

/-- C9 amended (dry-run relation): once both lookups succeed (with
non-empty ids), `canVerify` answers true exactly when the payment,
duplicate and event-consistency gates pass; in that case `verify`'s gate
run is exactly the remaining temporal gate; and any non-input failure of
`canVerify` has the same failure kind as the gate run.  `canVerify`
performs no write (it does not touch the log table by construction). -/
theorem c9_dry_run_relation (s : Store) (pid aid : String) (p : Participant)
    (a : EventAction) (hpid : pid ≠ "") (haid : aid ≠ "")
    (hp : getParticipantByID s pid = .ok p)
    (ha : getEventActionByID s aid = .ok a) :
    (canVerifyParticipant s pid aid = .ok () ↔
      (¬(isPaidEvent s p.eventID = true ∧ p.paymentStatus ≠ "paid") ∧
        hasActionLog s pid aid = false ∧ a.eventID = p.eventID)) ∧
    (∀ now, canVerifyParticipant s pid aid = .ok () →
      performVerificationChecks s now p a =
        checkEventDayValidity s now a.eventDayID) ∧
    (∀ now m code, canVerifyParticipant s pid aid = .error ⟨m, code⟩ →
      code ≠ .invalidInput →
      ∃ m2, performVerificationChecks s now p a = .error ⟨m2, code⟩) := by
  obtain ⟨_, hpidp⟩ := getParticipantByID_ok hp
  obtain ⟨_, haida⟩ := getEventActionByID_ok ha
  have hchar := canVerify_char hpid haid hp ha
  refine ⟨?_, ?_, ?_⟩
  · rw [hchar]
    split_ifs with h1 h2 h3
    · simp only [Bool.and_eq_true, decide_eq_true_eq, ne_eq] at h1
      constructor
      · intro hco
        exact absurd hco (by simp)
      · rintro ⟨hpay, _, _⟩
        exact absurd ⟨h1.1, by simpa using h1.2⟩ hpay
    · constructor
      · intro hco
        exact absurd hco (by simp)
      · rintro ⟨_, hdup, _⟩
        rw [h2] at hdup
        exact absurd hdup (by simp)
    · constructor
      · intro hco
        exact absurd hco (by simp)
      · rintro ⟨_, _, hev⟩
        exact absurd hev h3
    · refine iff_of_true rfl ⟨payment_gate_false_inv (by simpa using h1), ?_, ?_⟩
      · simpa using h2
      · simpa using h3
  · intro now hok
    rw [hchar] at hok
    split_ifs at hok with h1 h2 h3
    have hdup' : hasActionLog s p.id a.id = false := by
      rw [hpidp, haida]
      simpa using h2
    exact checks_reduce_to_temporal
      (payment_gate_false_inv (by simpa using h1)) hdup' (by simpa using h3)
  · intro now m code hco hcode
    rw [hchar] at hco
    split_ifs at hco with h1 h2 h3
    · injection hco with h'
      injection h' with hm hcd
      subst hcd
      exact ⟨_, checks_payment_fire h1⟩
    · injection hco with h'
      injection h' with hm hcd
      subst hcd
      have hdup' : hasActionLog s p.id a.id = true := by
        rw [hpidp, haida]
        exact h2
      exact ⟨_, checks_alreadyVerified
        (payment_gate_false_inv (by simpa using h1)) hdup'⟩
    · injection hco with h'
      injection h' with hm hcd
      subst hcd
      have hdup' : hasActionLog s p.id a.id = false := by
        rw [hpidp, haida]
        simpa using h2
      exact ⟨_, checks_mismatch_fire
        (payment_gate_false_inv (by simpa using h1)) hdup' h3⟩

/-- Witness for the amended C9 on `c9Store`: the dry run answers true and
the gate run reduces to the (failing) temporal gate. -/
theorem c9_witness :
    (canVerifyParticipant c9Store pid1 "a1" = .ok () ↔
      (¬(isPaidEvent c9Store (⟨pid1, "e1", "Ann", "a@x", "unpaid"⟩ :
            Participant).eventID = true ∧
          (⟨pid1, "e1", "Ann", "a@x", "unpaid"⟩ :
            Participant).paymentStatus ≠ "paid") ∧
        hasActionLog c9Store pid1 "a1" = false ∧
        (⟨"a1", "e1", "d1", "Check-in", "CHK", true⟩ :
          EventAction).eventID =
          (⟨pid1, "e1", "Ann", "a@x", "unpaid"⟩ : Participant).eventID)) ∧
      performVerificationChecks c9Store nanosPerDay
          ⟨pid1, "e1", "Ann", "a@x", "unpaid"⟩
          ⟨"a1", "e1", "d1", "Check-in", "CHK", true⟩ =
        checkEventDayValidity c9Store nanosPerDay "d1" :=
  ⟨(c9_dry_run_relation c9Store pid1 "a1"
      ⟨pid1, "e1", "Ann", "a@x", "unpaid"⟩
      ⟨"a1", "e1", "d1", "Check-in", "CHK", true⟩
      (by decide) (by decide) rfl rfl).1,
    (c9_dry_run_relation c9Store pid1 "a1"
      ⟨pid1, "e1", "Ann", "a@x", "unpaid"⟩
      ⟨"a1", "e1", "d1", "Check-in", "CHK", true⟩
      (by decide) (by decide) rfl rfl).2.1 nanosPerDay rfl⟩

/-- C5 (pagination normalization): on an existing event, `listForEvent`
clamps a page below 1 to 1 and a page size outside [1,100] to 20, pages
the joined rows at offset (page-1)*pageSize, and computes
totalPages = (total + pageSize - 1) / pageSize in truncating integer
division, which is the ceiling of total/pageSize: 0 when total = 0,
and in particular 3 for total = 45 with pageSize = 20. -/
theorem c5_pagination_normalization (s : Store) (eid : String)
    (f : VerificationFilters) (ev : Event)
    (he : getEventByID s eid = .ok ev) :
    ∃ L, getEventVerifications s eid (some f) = .ok L ∧
      L.page = (if f.page < 1 then 1 else f.page) ∧
      L.pageSize =
        (if f.pageSize < 1 || 100 < f.pageSize then 20 else f.pageSize) ∧
      L.totalCount = ((eventLogs s eid).length : Int) ∧
      L.verifications =
        ((eventLogs s eid).drop ((L.page - 1) * L.pageSize).toNat).take
          L.pageSize.toNat ∧
      L.totalPages = (L.totalCount + L.pageSize - 1).tdiv L.pageSize ∧
      1 ≤ L.pageSize ∧ L.pageSize ≤ 100 ∧ 1 ≤ L.page ∧
      (L.totalCount = 0 → L.totalPages = 0) ∧
      (0 < L.totalCount →
        (L.totalPages - 1) * L.pageSize < L.totalCount ∧
          L.totalCount ≤ L.totalPages * L.pageSize) ∧
      (L.totalCount = 45 → L.pageSize = 20 → L.totalPages = 3) := by
  have hne : eid ≠ "" := by
    intro h
    rw [h] at he
    unfold getEventByID at he
    simp at he
  set pg : Int := (if f.page < 1 then 1 else f.page) with hpg
  set ps : Int := (if f.pageSize < 1 || 100 < f.pageSize then 20 else f.pageSize)
    with hps
  set T : Int := ((eventLogs s eid).length : Int) with hT
  have hP1 : 1 ≤ ps := by
    rw [hps]
    split
    · omega
    · next hcl =>
      simp only [Bool.or_eq_true, decide_eq_true_eq, not_or, not_lt] at hcl
      omega
  have hP2 : ps ≤ 100 := by
    rw [hps]
    split
    · omega
    · next hcl =>
      simp only [Bool.or_eq_true, decide_eq_true_eq, not_or, not_lt] at hcl
      omega
  have hpg1 : 1 ≤ pg := by
    rw [hpg]
    split <;> omega
  have hT0 : 0 ≤ T := by
    rw [hT]
    positivity
  refine ⟨⟨((eventLogs s eid).drop ((pg - 1) * ps).toNat).take ps.toNat, T, pg,
    ps, (T + ps - 1).tdiv ps⟩, ?_, hpg, hps, hT, rfl, rfl, hP1, hP2, hpg1,
    ?_, ?_, ?_⟩
  · unfold getEventVerifications
    rw [if_neg hne, he]
    rfl
  · intro h0
    show (T + ps - 1).tdiv ps = 0
    simp only at h0
    rw [h0, zero_add, Int.tdiv_eq_ediv (by omega) (by omega)]
    exact Int.ediv_eq_zero_of_lt (by omega) (by omega)
  · intro hpos
    simp only at hpos
    show ((T + ps - 1).tdiv ps - 1) * ps < T ∧ T ≤ (T + ps - 1).tdiv ps * ps
    rw [Int.tdiv_eq_ediv (by omega) (by omega)]
    have key := Int.ediv_add_emod (T + ps - 1) ps
    have h1 := Int.emod_nonneg (T + ps - 1) (show ps ≠ 0 by omega)
    have h2 := Int.emod_lt_of_pos (T + ps - 1) (show 0 < ps by omega)
    set q := (T + ps - 1) / ps with hq
    set r := (T + ps - 1) % ps with hr
    have hd : (q - 1) * ps = q * ps - ps := by ring
    rw [hd]
    rw [mul_comm ps q] at key
    generalize hM : q * ps = M at *
    omega
  · intro h45 h20
    simp only at h45 h20
    show (T + ps - 1).tdiv ps = 3
    rw [h45, h20]
    decide

/-- Witness for C5 on `wStore` with out-of-range filters (page 0, page
size 0): both are clamped and all pagination facts hold. -/
theorem c5_witness :
    getEventByID wStore "e1" = .ok wEvent1 ∧
      ∃ L, getEventVerifications wStore "e1" (some ⟨0, 0⟩) = .ok L ∧
        L.page = (if (0 : Int) < 1 then 1 else 0) ∧
        L.pageSize = (if (0 : Int) < 1 || 100 < (0 : Int) then 20 else 0) ∧
        L.totalCount = ((eventLogs wStore "e1").length : Int) ∧
        L.verifications =
          ((eventLogs wStore "e1").drop ((L.page - 1) * L.pageSize).toNat).take
            L.pageSize.toNat ∧
        L.totalPages = (L.totalCount + L.pageSize - 1).tdiv L.pageSize ∧
        1 ≤ L.pageSize ∧ L.pageSize ≤ 100 ∧ 1 ≤ L.page ∧
        (L.totalCount = 0 → L.totalPages = 0) ∧
        (0 < L.totalCount →
          (L.totalPages - 1) * L.pageSize < L.totalCount ∧
            L.totalCount ≤ L.totalPages * L.pageSize) ∧
        (L.totalCount = 45 → L.pageSize = 20 → L.totalPages = 3) :=
  ⟨rfl, c5_pagination_normalization wStore "e1" ⟨0, 0⟩ wEvent1 rfl⟩

/-- A store for C3: the only action with code `OLD` exists but is
inactive, and no action has code `NOPE`. -/
def c3Store : Store :=
  { users := [⟨"v1", "v@x", "staff"⟩]
    events := [⟨"e1", "Conf", "conf", 0, true⟩]
    eventDays := [⟨"d1", "e1", 1, "Day 1", 0⟩]
    actions := [⟨"a1", "e1", "d1", "Closed", "OLD", false⟩]
    participants := [⟨pid1, "e1", "Ann", "a@x", "paid"⟩]
    logs := [] }

/-- C3 (action lookup): the code's intended `ACTION_NOT_FOUND` and
`ACTION_INACTIVE` outcomes are unreachable.  `GetEventActionByCode`
filters `is_active = true` and rewraps the gorm not-found sentinel with a
fresh `fmt.Errorf` (no `%w`), so for a missing code AND for an
existing-but-inactive code the service's `errors.Is` test fails and
`verify` reports `DATABASE_ERROR` ("failed to get action") instead; no
`ActionLog` is created in either case. -/
theorem c3_action_lookup_divergence :
    ((c3Store.actions.find? fun a => a.code = "NOPE") = none ∧
      getAndValidateAction c3Store "NOPE" =
        .error ⟨"failed to get action", .databaseError⟩) ∧
    ((∃ a, a ∈ c3Store.actions ∧ a.code = "OLD" ∧ a.isActive = false) ∧
      getAndValidateAction c3Store "OLD" =
        .error ⟨"failed to get action", .databaseError⟩) ∧
    ((verifyParticipantAction c3Store 5 "log1" ⟨pid1, "OLD", "v1"⟩).1 =
        .error ⟨"failed to get action", .databaseError⟩ ∧
      (verifyParticipantAction c3Store 5 "log1" ⟨pid1, "OLD", "v1"⟩).2 =
        c3Store ∧
      (verifyParticipantAction c3Store 5 "log1" ⟨pid1, "NOPE", "v1"⟩).1 =
        .error ⟨"failed to get action", .databaseError⟩ ∧
      (verifyParticipantAction c3Store 5 "log1" ⟨pid1, "NOPE", "v1"⟩).2 =
        c3Store) := by
  exact ⟨⟨rfl, rfl⟩,
    ⟨⟨⟨"a1", "e1", "d1", "Closed", "OLD", false⟩, by simp [c3Store], rfl, rfl⟩,
      rfl⟩, rfl, rfl, rfl, rfl⟩

/-- A store for C6: one event with two participants and two redemption
logs. -/
def c6Store : Store :=
  { users := [⟨"v1", "v@x", "staff"⟩]
    events := [⟨"e1", "Conf", "conf", 0, true⟩]
    eventDays := [⟨"d1", "e1", 1, "Day 1", 0⟩]
    actions := [⟨"a1", "e1", "d1", "Check-in", "CHK", true⟩]
    participants := [⟨pid1, "e1", "Ann", "a@x", "paid"⟩,
      ⟨pid2, "e1", "Bob", "b@x", "paid"⟩]
    logs := [⟨"l1", pid1, "a1", "v1", 1, 1⟩, ⟨"l2", pid2, "a1", "v1", 2, 2⟩] }

/-- C6 (statistics by event): the event of `c6Store` has TWO `ActionLog`
rows, yet the statistics report `totalVerifications = 1`:
`calculateVerificationStatistics` takes the length of a LIMIT-1 page
("Just to get count") instead of the count the repository returns, so the
reported totals are `min(total, 1)`, not the total; the rate divides that
same number by the participant count. -/
theorem c6_stats_count_divergence :
    (eventLogs c6Store "e1").length = 2 ∧
      getParticipantCountByEventID c6Store "e1" = 2 ∧
      (∃ st, getVerificationStats c6Store "e1" = .ok st ∧
        st.totalVerifications = 1 ∧ st.uniqueParticipants = 1 ∧
        st.verificationRate = 1 / 2) := by
  refine ⟨rfl, rfl, ⟨_, rfl, rfl, rfl, by rfl⟩⟩

end Smses
